import Mathlib

/-!
Verification of the bedtime-story RCS webhook service (`src/server.js`).

The development shallowly embeds the inbound-webhook dispatch logic:
the inbound event shape, the classification decision encoded in the
`POST /webhooks/inbound` handler's branches, the Gemini generation
call with its try/catch fallback, the outbound message constructors
(`RCSText` and the `RCSCustom` rich card of `sendInitialStoryPrompt`),
and the error-absorbing send helpers. JavaScript `undefined` fields
are modelled with `Option`; a backend call that may throw is modelled
as an `Except String String` value supplied as a parameter.
-/

/-- The structured `reply` object of an inbound RCS suggested-reply event
(`req.body.reply` in `server.js`). Both fields may be absent. -/
structure ReplyPayload where
  id : Option String
  title : Option String
deriving DecidableEq

/-- The fields of `req.body` that the inbound handler destructures and reads
(`const \x7b channel, message_type, reply, from \x7d = req.body` plus
`req.body.text`). Any field may be absent from the JSON body. -/
structure InboundEvent where
  channel : Option String
  message_type : Option String
  reply : Option ReplyPayload
  «from» : Option String
  text : Option String
deriving DecidableEq

/-- The decision derived from an inbound event (spec entity
`ReplyClassification`), extracted from the branch structure of the
inbound handler in `server.js` lines 80-126. -/
inductive ReplyClassification where
  | GenerateStoryTrigger (recipient : Option String)
  | PlainEcho (recipient : Option String) (originalText : Option String)
  | Ignored
deriving DecidableEq

/-- Result of one generation attempt (spec entity `StoryResult`). -/
inductive StoryResult where
  | Generated (text : String)
  | Failed (fallbackText : String)
deriving DecidableEq

/-- The text carried by a `StoryResult`, whichever variant it is. -/
def StoryResult.storyText : StoryResult → String
  | StoryResult.Generated t => t
  | StoryResult.Failed f => f

/-- The fixed Gemini prompt string used in both trigger branches of the
inbound handler (`server.js` lines 90 and 107). -/
def storyPrompt : String :=
  "Generate a short, calming bedtime story for children (approx. 100-150 words)."

/-- The fixed fallback text sent when generation fails
(`server.js` lines 98 and 115). -/
def fallbackText : String :=
  "Oops! I couldn't generate a story right now. Please try again later."

/-- The generation step of the handler's trigger branches: the
`geminiModel.generateContent` call inside `try`, with the `catch (geminiError)`
arm substituting the fixed fallback. The backend outcome (returned text, or
any thrown failure) is the `Except` argument. -/
def generateStory (backend : Except String String) : StoryResult :=
  match backend with
  | Except.ok t => StoryResult.Generated t
  | Except.error _ => StoryResult.Failed fallbackText

/-- An outbound plain text message: the `RCSText \x7b to, from, text \x7d`
constructed by `sendGeneratedStory` in `server.js`. `to` is whatever the
handler read from the event, possibly absent. -/
structure TextReply where
  «to» : Option String
  «from» : String
  text : String
deriving DecidableEq

/-- The pure construction part of `sendGeneratedStory(to, story)` in
`server.js`: builds the `RCSText` payload with the configured sender id. -/
def sendGeneratedStory (senderId : String) («to» : Option String) (story : String) : TextReply :=
  { «to» := «to», «from» := senderId, text := story }

/-- The try/catch wrapper of `vonage.messages.send` inside
`sendGeneratedStory` and `sendInitialStoryPrompt`: any transport failure is
caught and logged, so the helper itself always completes normally. -/
def sendWithAbsorb (transport : TextReply → Except String Unit) (m : TextReply) :
    Except String Unit :=
  match transport m with
  | Except.ok _ => Except.ok ()
  | Except.error _ => Except.ok ()

/-- JavaScript string coercion of a possibly-undefined value, as performed by
the `+` concatenation `"I received your message: " + req.body.text` in
`server.js` line 121. -/
def jsStringOfOption : Option String → String
  | some s => s
  | none => "undefined"

/-- The echo body built in the non-trigger text branch of the handler
(`server.js` lines 119-124). -/
def echoBody (t : Option String) : String :=
  "I received your message: " ++ jsStringOfOption t ++ ". Tap 'Generate Story' for a tale!"

/-- JavaScript `texjsToLowerCase tCase()` as used in `server.js` line 105,
modelled over the ASCII range (the only range the trigger comparison
exercises): lowercases each character of the string. -/
def jsToLowerCase (s : String) : String :=
  String.mk (s.data.map Char.toLower)

/-- The classification decision encoded in the handler's branches
(`server.js` lines 80-126):
`channel === "rcs" && message_type === "reply" && reply` with
`reply.id === "GENERATE_STORY_REQUEST" || reply.title === "Generate Story"`
selects the trigger; the rcs text branch triggers when `req.body.text` is
truthy and lowercases to `"generate story"`, and otherwise echoes; every
other event falls through with no action. -/
def classify (e : InboundEvent) : ReplyClassification :=
  if e.channel = some "rcs" ∧ e.message_type = some "reply" ∧ e.reply.isSome then
    match e.reply with
    | some r =>
        if r.id = some "GENERATE_STORY_REQUEST" ∨ r.title = some "Generate Story" then
          ReplyClassification.GenerateStoryTrigger e.«from»
        else
          ReplyClassification.Ignored
    | none => ReplyClassification.Ignored
  else if e.channel = some "rcs" ∧ e.message_type = some "text" then
    match e.text with
    | some t =>
        if t ≠ "" ∧ jsToLowerCase t = "generate story" then
          ReplyClassification.GenerateStoryTrigger e.«from»
        else
          ReplyClassification.PlainEcho e.«from» (some t)
    | none => ReplyClassification.PlainEcho e.«from» none
  else
    ReplyClassification.Ignored

/-- Observable outcome of one run of the `POST /webhooks/inbound` handler:
the prompts handed to the generation backend, the messages handed to
`sendGeneratedStory`, and the HTTP response (`res.status(200).json(\x7bok:true\x7d)`). -/
structure HandlerOutcome where
  genCalls : List String
  sends : List TextReply
  status : Nat
  okBody : Bool
deriving DecidableEq

/-- The `POST /webhooks/inbound` handler body (`server.js` lines 79-129),
branch for branch. Each trigger branch inlines its own
`try \x7b generateContent ... send \x7d catch \x7b send fallback \x7d`; the backend
outcome is the `Except` argument, shared by whichever single branch runs.
The final `res.status(200).json(\x7bok:true\x7d)` runs on every path. -/
def inboundHandler (senderId : String) (backend : Except String String)
    (e : InboundEvent) : HandlerOutcome :=
  if e.channel = some "rcs" ∧ e.message_type = some "reply" ∧ e.reply.isSome then
    match e.reply with
    | some r =>
        if r.id = some "GENERATE_STORY_REQUEST" ∨ r.title = some "Generate Story" then
          match backend with
          | Except.ok story =>
              { genCalls := [storyPrompt],
                sends := [sendGeneratedStory senderId e.«from» story],
                status := 200, okBody := true }
          | Except.error _ =>
              { genCalls := [storyPrompt],
                sends := [sendGeneratedStory senderId e.«from» fallbackText],
                status := 200, okBody := true }
        else
          { genCalls := [], sends := [], status := 200, okBody := true }
    | none => { genCalls := [], sends := [], status := 200, okBody := true }
  else if e.channel = some "rcs" ∧ e.message_type = some "text" then
    match e.text with
    | some t =>
        if t ≠ "" ∧ jsToLowerCase t = "generate story" then
          match backend with
          | Except.ok story =>
              { genCalls := [storyPrompt],
                sends := [sendGeneratedStory senderId e.«from» story],
                status := 200, okBody := true }
          | Except.error _ =>
              { genCalls := [storyPrompt],
                sends := [sendGeneratedStory senderId e.«from» fallbackText],
                status := 200, okBody := true }
        else
          { genCalls := [],
            sends := [sendGeneratedStory senderId e.«from» (echoBody (some t))],
            status := 200, okBody := true }
    | none =>
        { genCalls := [],
          sends := [sendGeneratedStory senderId e.«from» (echoBody none)],
          status := 200, okBody := true }
  else
    { genCalls := [], sends := [], status := 200, okBody := true }

/-- One suggestion of the rich card: the
`\x7b reply: \x7b text, postbackData \x7d \x7d` object of `sendInitialStoryPrompt`. -/
structure Suggestion where
  text : String
  postbackData : String
deriving DecidableEq

/-- The rich card payload (spec entity `RichCardPrompt`) built by
`sendInitialStoryPrompt` in `server.js` lines 152-183. -/
structure RichCardPrompt where
  «to» : String
  «from» : String
  cardOrientation : String
  title : String
  description : String
  mediaHeight : String
  fileUrl : String
  suggestions : List Suggestion
deriving DecidableEq

/-- The pure construction part of `sendInitialStoryPrompt(number)`: the
`RCSCustom` rich card literal of `server.js` lines 153-183, field for field. -/
def buildStoryPrompt (recipient : String) (sender : String) : RichCardPrompt :=
  { «to» := recipient,
    «from» := sender,
    cardOrientation := "VERTICAL",
    title := "Bedtime Story Generator",
    description := "Tap \"Generate Story\" for a magical tale!",
    mediaHeight := "MEDIUM",
    fileUrl := "https://cdn-icons-png.flaticon.com/512/2917/2917637.png",
    suggestions := [{ text := "Generate Story", postbackData := "GENERATE_STORY_REQUEST" }] }

/-- The per-classification outbound behaviour (spec component 4.4, Dispatch
Coordinator): what the handler invokes on the backend and what it sends, as
a function of the classification result alone. -/
def dispatch (senderId : String) (backend : Except String String) :
    ReplyClassification → List String × List TextReply
  | ReplyClassification.GenerateStoryTrigger recipient =>
      ([storyPrompt],
       [sendGeneratedStory senderId recipient (generateStory backend).storyText])
  | ReplyClassification.PlainEcho recipient originalText =>
      ([], [sendGeneratedStory senderId recipient (echoBody originalText)])
  | ReplyClassification.Ignored => ([], [])

/-- C1: an rcs reply event whose reply matches the trigger id or title is
classified `GenerateStoryTrigger` for the event's sender, generation is
invoked once, and exactly one `TextReply` carrying the generation result is
sent to that sender; any other id/title pair is `Ignored` with no send. -/
theorem reply_trigger_dispatch (senderId : String) (backend : Except String String)
    (e : InboundEvent) (r : ReplyPayload)
    (hch : e.channel = some "rcs") (hmt : e.message_type = some "reply")
    (hre : e.reply = some r) :
    ((r.id = some "GENERATE_STORY_REQUEST" ∨ r.title = some "Generate Story") →
      classify e = ReplyClassification.GenerateStoryTrigger e.«from» ∧
      (inboundHandler senderId backend e).genCalls = [storyPrompt] ∧
      (inboundHandler senderId backend e).sends
        = [sendGeneratedStory senderId e.«from» (generateStory backend).storyText]) ∧
    (r.id ≠ some "GENERATE_STORY_REQUEST" → r.title ≠ some "Generate Story" →
      classify e = ReplyClassification.Ignored ∧
      (inboundHandler senderId backend e).genCalls = [] ∧
      (inboundHandler senderId backend e).sends = []) := by
  constructor
  · intro hm
    rcases hm with hm | hm <;> cases backend <;>
      simp [classify, inboundHandler, hch, hmt, hre, hm, generateStory,
        StoryResult.storyText]
  · intro hid htitle
    simp [classify, inboundHandler, hch, hmt, hre, hid, htitle]

theorem reply_trigger_dispatch_witness :
    (classify ⟨some "rcs", some "reply", some ⟨some "GENERATE_STORY_REQUEST", some "X"⟩,
        some "+1555", none⟩
      = ReplyClassification.GenerateStoryTrigger (some "+1555")) ∧
    (inboundHandler "RCSID" (Except.ok "Once upon a time.")
        ⟨some "rcs", some "reply", some ⟨some "GENERATE_STORY_REQUEST", some "X"⟩,
          some "+1555", none⟩).genCalls = [storyPrompt] ∧
    (inboundHandler "RCSID" (Except.ok "Once upon a time.")
        ⟨some "rcs", some "reply", some ⟨some "GENERATE_STORY_REQUEST", some "X"⟩,
          some "+1555", none⟩).sends
      = [sendGeneratedStory "RCSID" (some "+1555") "Once upon a time."] :=
  (reply_trigger_dispatch "RCSID" (Except.ok "Once upon a time.")
    ⟨some "rcs", some "reply", some ⟨some "GENERATE_STORY_REQUEST", some "X"⟩,
      some "+1555", none⟩
    ⟨some "GENERATE_STORY_REQUEST", some "X"⟩
    rfl rfl rfl).1 (Or.inl rfl)

/-- C2: an rcs text event whose text lowercases to `"generate story"` (any
casing, exact match) is classified `GenerateStoryTrigger` for the event's
sender, and generation is invoked, the result going out as one `TextReply`. -/
theorem text_trigger_dispatch (senderId : String) (backend : Except String String)
    (e : InboundEvent) (t : String)
    (hch : e.channel = some "rcs") (hmt : e.message_type = some "text")
    (htx : e.text = some t) (hlow : jsToLowerCase t = "generate story") :
    classify e = ReplyClassification.GenerateStoryTrigger e.«from» ∧
    (inboundHandler senderId backend e).genCalls = [storyPrompt] ∧
    (inboundHandler senderId backend e).sends
      = [sendGeneratedStory senderId e.«from» (generateStory backend).storyText] := by
  have hne : t ≠ "" := by
    intro h
    rw [h] at hlow
    exact absurd hlow (by decide)
  cases backend <;>
    simp [classify, inboundHandler, hch, hmt, htx, hne, hlow, generateStory,
      StoryResult.storyText]

theorem text_trigger_dispatch_witness :
    (classify ⟨some "rcs", some "text", none, some "+1555", some "GENERATE Story"⟩
      = ReplyClassification.GenerateStoryTrigger (some "+1555")) ∧
    (inboundHandler "RCSID" (Except.error "backend down")
        ⟨some "rcs", some "text", none, some "+1555", some "GENERATE Story"⟩).genCalls
      = [storyPrompt] ∧
    (inboundHandler "RCSID" (Except.error "backend down")
        ⟨some "rcs", some "text", none, some "+1555", some "GENERATE Story"⟩).sends
      = [sendGeneratedStory "RCSID" (some "+1555") fallbackText] :=
  text_trigger_dispatch "RCSID" (Except.error "backend down")
    ⟨some "rcs", some "text", none, some "+1555", some "GENERATE Story"⟩
    "GENERATE Story" rfl rfl rfl (by decide)

/-- C3: an rcs text event whose text does not lowercase to
`"generate story"` is classified `PlainEcho` carrying the text verbatim, and
exactly one `TextReply` goes to the sender with the exact echo body
`"I received your message: " ++ t ++ ". Tap 'Generate Story' for a tale!"`. -/
theorem plain_text_echo_dispatch (senderId : String) (backend : Except String String)
    (e : InboundEvent) (t : String)
    (hch : e.channel = some "rcs") (hmt : e.message_type = some "text")
    (htx : e.text = some t) (hlow : jsToLowerCase t ≠ "generate story") :
    classify e = ReplyClassification.PlainEcho e.«from» (some t) ∧
    (inboundHandler senderId backend e).genCalls = [] ∧
    (inboundHandler senderId backend e).sends
      = [sendGeneratedStory senderId e.«from»
          ("I received your message: " ++ t ++ ". Tap 'Generate Story' for a tale!")] := by
  simp [classify, inboundHandler, hch, hmt, htx, hlow, echoBody, jsStringOfOption]

theorem plain_text_echo_dispatch_witness :
    (classify ⟨some "rcs", some "text", none, some "+1555", some "hello"⟩
      = ReplyClassification.PlainEcho (some "+1555") (some "hello")) ∧
    (inboundHandler "RCSID" (Except.ok "story")
        ⟨some "rcs", some "text", none, some "+1555", some "hello"⟩).genCalls = [] ∧
    (inboundHandler "RCSID" (Except.ok "story")
        ⟨some "rcs", some "text", none, some "+1555", some "hello"⟩).sends
      = [sendGeneratedStory "RCSID" (some "+1555")
          "I received your message: hello. Tap 'Generate Story' for a tale!"] :=
  plain_text_echo_dispatch "RCSID" (Except.ok "story")
    ⟨some "rcs", some "text", none, some "+1555", some "hello"⟩
    "hello" rfl rfl rfl (by decide)

/-- C6: an event whose channel is not `"rcs"` is `Ignored` and nothing is
sent, even when every other field would match a trigger. -/
theorem non_rcs_ignored (senderId : String) (backend : Except String String)
    (e : InboundEvent) (h : e.channel ≠ some "rcs") :
    classify e = ReplyClassification.Ignored ∧
    (inboundHandler senderId backend e).genCalls = [] ∧
    (inboundHandler senderId backend e).sends = [] := by
  simp [classify, inboundHandler, h]

theorem non_rcs_ignored_witness :
    (classify ⟨some "sms", some "text", none, some "+1555", some "generate story"⟩
      = ReplyClassification.Ignored) ∧
    (inboundHandler "RCSID" (Except.ok "story")
        ⟨some "sms", some "text", none, some "+1555", some "generate story"⟩).genCalls = [] ∧
    (inboundHandler "RCSID" (Except.ok "story")
        ⟨some "sms", some "text", none, some "+1555", some "generate story"⟩).sends = [] :=
  non_rcs_ignored "RCSID" (Except.ok "story")
    ⟨some "sms", some "text", none, some "+1555", some "generate story"⟩
    (by decide)

/-- C4: `generateStory` is total over every backend outcome — a backend
failure of any kind yields `Failed` carrying exactly the fixed fallback
string, never an exception, and a backend success yields `Generated` with
the backend's text unmodified. -/
theorem generateStory_total_fallback :
    (∀ t : String, generateStory (Except.ok t) = StoryResult.Generated t) ∧
    (∀ msg : String, generateStory (Except.error msg) = StoryResult.Failed fallbackText) ∧
    fallbackText = "Oops! I couldn't generate a story right now. Please try again later." :=
  ⟨fun _ => rfl, fun _ => rfl, rfl⟩

/-- C5: for every inbound event and every backend outcome the webhook
handler answers `200 \x7bok:true\x7d`, and the send helper absorbs every
transport failure, so the acknowledgment is decoupled from generation and
send success. -/
theorem inbound_always_ok (senderId : String) (backend : Except String String)
    (e : InboundEvent) (transport : TextReply → Except String Unit) (m : TextReply) :
    (inboundHandler senderId backend e).status = 200 ∧
    (inboundHandler senderId backend e).okBody = true ∧
    sendWithAbsorb transport m = Except.ok () := by
  refine ⟨?_, ?_, ?_⟩
  · unfold inboundHandler
    split
    · split
      · split <;> cases backend <;> rfl
      · rfl
    · split
      · split
        · split <;> cases backend <;> rfl
        · rfl
      · rfl
  · unfold inboundHandler
    split
    · split
      · split <;> cases backend <;> rfl
      · rfl
    · split
      · split
        · split <;> cases backend <;> rfl
        · rfl
      · rfl
  · unfold sendWithAbsorb
    split <;> rfl

/-- C7 counterexample: the concrete rcs text event with no `text` field is
not `Ignored` — the handler classifies it as an echo and sends one reply
(whose body renders the missing text as `"undefined"`). -/
theorem missing_text_not_ignored_cex :
    (classify ⟨some "rcs", some "text", none, some "+1555", none⟩
      ≠ ReplyClassification.Ignored) ∧
    (inboundHandler "RCSID" (Except.ok "story")
        ⟨some "rcs", some "text", none, some "+1555", none⟩).sends ≠ [] := by
  decide

/-- C7 (amended): events with missing `channel` or `message_type`, and rcs
reply events with no `reply` object, are `Ignored` with no send; but an rcs
text event with no `text` field is classified `PlainEcho` (not `Ignored`)
and one echo reply is sent whose body renders the missing text as
`"undefined"`. -/
theorem missing_fields_handling (senderId : String) (backend : Except String String)
    (e : InboundEvent) :
    (e.channel = none →
      classify e = ReplyClassification.Ignored ∧
      (inboundHandler senderId backend e).sends = []) ∧
    (e.message_type = none →
      classify e = ReplyClassification.Ignored ∧
      (inboundHandler senderId backend e).sends = []) ∧
    (e.channel = some "rcs" → e.message_type = some "reply" → e.reply = none →
      classify e = ReplyClassification.Ignored ∧
      (inboundHandler senderId backend e).sends = []) ∧
    (e.channel = some "rcs" → e.message_type = some "text" → e.text = none →
      classify e = ReplyClassification.PlainEcho e.«from» none ∧
      (inboundHandler senderId backend e).sends
        = [sendGeneratedStory senderId e.«from» (echoBody none)] ∧
      echoBody none
        = "I received your message: undefined. Tap 'Generate Story' for a tale!") := by
  refine ⟨?_, ?_, ?_, ?_⟩
  · intro hch
    simp [classify, inboundHandler, hch]
  · intro hmt
    simp [classify, inboundHandler, hmt]
  · intro hch hmt hre
    simp [classify, inboundHandler, hch, hmt, hre]
  · intro hch hmt htx
    refine ⟨?_, ?_, by decide⟩ <;>
      simp [classify, inboundHandler, hch, hmt, htx]

theorem missing_fields_handling_witness :
    classify ⟨some "rcs", some "text", none, some "+1555", none⟩
      = ReplyClassification.PlainEcho (some "+1555") none ∧
    (inboundHandler "RCSID" (Except.ok "story")
        ⟨some "rcs", some "text", none, some "+1555", none⟩).sends
      = [sendGeneratedStory "RCSID" (some "+1555") (echoBody none)] ∧
    echoBody none
      = "I received your message: undefined. Tap 'Generate Story' for a tale!" :=
  (missing_fields_handling "RCSID" (Except.ok "story")
    ⟨some "rcs", some "text", none, some "+1555", none⟩).2.2.2 rfl rfl rfl

/-- C8: `buildStoryPrompt` produces, for every recipient and sender, a card
whose title, description, image URL, orientation and single suggestion
(label `"Generate Story"`, payload `"GENERATE_STORY_REQUEST"`) are the fixed
constants, the remaining fields being exactly the given recipient and
sender. -/
theorem buildStoryPrompt_fixed_fields (recipient sender : String) :
    (buildStoryPrompt recipient sender).«to» = recipient ∧
    (buildStoryPrompt recipient sender).«from» = sender ∧
    (buildStoryPrompt recipient sender).cardOrientation = "VERTICAL" ∧
    (buildStoryPrompt recipient sender).title = "Bedtime Story Generator" ∧
    (buildStoryPrompt recipient sender).description
      = "Tap \"Generate Story\" for a magical tale!" ∧
    (buildStoryPrompt recipient sender).mediaHeight = "MEDIUM" ∧
    (buildStoryPrompt recipient sender).fileUrl
      = "https://cdn-icons-png.flaticon.com/512/2917/2917637.png" ∧
    (buildStoryPrompt recipient sender).suggestions
      = [{ text := "Generate Story", postbackData := "GENERATE_STORY_REQUEST" }] :=
  ⟨rfl, rfl, rfl, rfl, rfl, rfl, rfl, rfl⟩

/-- C9: round-trip between builder and classifier — for any suggestion on
the card built by `buildStoryPrompt`, an rcs reply event whose `reply.id`
equals that suggestion's payload, or whose `reply.title` equals its label,
is classified `GenerateStoryTrigger` for the event's sender. -/
theorem prompt_classifier_round_trip (recipient sender : String)
    (e : InboundEvent) (r : ReplyPayload) (s : Suggestion)
    (hs : s ∈ (buildStoryPrompt recipient sender).suggestions)
    (hch : e.channel = some "rcs") (hmt : e.message_type = some "reply")
    (hre : e.reply = some r)
    (hm : r.id = some s.postbackData ∨ r.title = some s.text) :
    classify e = ReplyClassification.GenerateStoryTrigger e.«from» := by
  have hs' : s = ⟨"Generate Story", "GENERATE_STORY_REQUEST"⟩ := by
    simpa [buildStoryPrompt] using hs
  subst hs'
  rcases hm with hm | hm <;> simp [classify, hch, hmt, hre, hm]

theorem prompt_classifier_round_trip_witness :
    classify ⟨some "rcs", some "reply", some ⟨none, some "Generate Story"⟩,
        some "+1555", none⟩
      = ReplyClassification.GenerateStoryTrigger (some "+1555") :=
  prompt_classifier_round_trip "+1555" "RCSID"
    ⟨some "rcs", some "reply", some ⟨none, some "Generate Story"⟩, some "+1555", none⟩
    ⟨none, some "Generate Story"⟩
    ⟨"Generate Story", "GENERATE_STORY_REQUEST"⟩
    (by decide) rfl rfl rfl (Or.inr rfl)

/-- C10: the two trigger paths are behaviourally equivalent — the handler's
backend invocations and outbound sends are exactly those `dispatch` derives
from the classification result alone, so once an event classifies as
`GenerateStoryTrigger` the subsequent handling does not depend on whether
the trigger arrived as a structured reply or as free text. -/
theorem handler_factors_through_classify (senderId : String)
    (backend : Except String String) (e : InboundEvent) :
    (inboundHandler senderId backend e).genCalls
      = (dispatch senderId backend (classify e)).1 ∧
    (inboundHandler senderId backend e).sends
      = (dispatch senderId backend (classify e)).2 := by
  obtain ⟨ch, mt, rep, frm, tx⟩ := e
  cases rep <;> cases tx <;> cases backend <;>
    simp only [inboundHandler, classify] <;>
    split_ifs <;>
    simp_all [dispatch, generateStory, StoryResult.storyText]
